import Mathlib

/-!
Shallow embedding of the stock-screening client (frontend/src/App.tsx and
frontend/src/api/stock.ts): the workflow controller that drives the two-phase
screen/filter pipeline, and the chart geometry computed inline in the JSX.

Numbers from the source are modelled as rationals (ℚ).  The one place where
JavaScript number semantics matter is the polyline x coordinate, which divides
by `length - 1`: for a single-sample series this is `0 / 0 = NaN`.  Division
results are therefore modelled as `Option ℚ`, `none` standing for a non-finite
JavaScript result (NaN or ±Infinity); every other arithmetic operation in the
source stays within finite values.
-/

/-- Field-for-field embedding of `ScreenedStock` (api/stock.ts). -/
structure ScreenedStock where
  code : String
  name : String
  price : ℚ
  change : ℚ
  change_percent : ℚ
  volume_ratio : ℚ
  turnover : ℚ
  market_cap : ℚ
  amount : ℚ
  volume : ℚ
deriving DecidableEq, Repr

/-- Embedding of `NegativeNewsItem` (api/stock.ts). -/
structure NegativeNewsItem where
  title : String
  date : String
  source : String
  keywords : List String
deriving DecidableEq, Repr

/-- Embedding of `NegativeNewsInfo` (api/stock.ts); `risk_level` is one of
"low" | "medium" | "high", kept as a string as on the wire. -/
structure NegativeNewsInfo where
  has_negative_news : Bool
  negative_count : ℚ
  total_news_count : ℚ
  negative_news : List NegativeNewsItem
  risk_level : String
deriving DecidableEq, Repr

/-- Embedding of `MinuteVolumeItem` (api/stock.ts). -/
structure MinuteVolumeItem where
  time : String
  price : ℚ
  volume : ℚ
  cum_volume : ℚ
deriving DecidableEq, Repr

/-- Embedding of the anonymous `analysis` object inside `FilteredStock`. -/
structure StockAnalysis where
  volume_pattern : String
  price_position : String
  sector : String
deriving DecidableEq, Repr

/-- Embedding of `FilteredStock` (api/stock.ts); optional fields are `Option`. -/
structure FilteredStock where
  code : String
  name : String
  price : ℚ
  change_percent : ℚ
  volume_ratio : ℚ
  market_cap : ℚ
  turnover : Option ℚ
  amount : Option ℚ
  ma5 : ℚ
  support_level : ℚ
  analysis : StockAnalysis
  negative_news : Option NegativeNewsInfo
  minute_volume : Option (List MinuteVolumeItem)
deriving DecidableEq, Repr

/-- Embedding of `AnalysisResult` (api/stock.ts). -/
structure AnalysisResult where
  code : String
  name : String
  price : ℚ
  change_percent : ℚ
  volume_ratio : ℚ
  market_cap : ℚ
  ma5 : ℚ
  support_level : ℚ
  has_volume_pattern : Bool
  above_ma5_high : Bool
  is_digital_economy : Bool
  qualified : Bool
deriving DecidableEq, Repr

/-- Modelled from the spec: the tail-session trend indicator of an
`AISelectedStock`.  The interface declaration is not under src/ (App.tsx
imports it from api/stock.ts, whose shipped excerpt stops before it); the
fields are those App.tsx reads (`indicators.tail_trend.trend`). -/
structure TailTrend where
  trend : String
deriving DecidableEq, Repr

/-- Modelled from the spec: headroom-to-limit indicator
(`indicators.upside_space.space`, `.near_limit` in App.tsx). -/
structure UpsideSpace where
  space : ℚ
  near_limit : Bool
deriving DecidableEq, Repr

/-- Modelled from the spec: main-capital-flow indicator
(`indicators.capital_flow.is_inflow`, `.main_inflow` in App.tsx). -/
structure CapitalFlow where
  is_inflow : Bool
  main_inflow : ℚ
deriving DecidableEq, Repr

/-- Modelled from the spec: the `indicators` object of an `AISelectedStock`,
with the four indicator groups App.tsx reads. -/
structure AIIndicators where
  tail_trend : TailTrend
  upside_space : UpsideSpace
  capital_flow : CapitalFlow
  open_probability : String
deriving DecidableEq, Repr

/-- Modelled from the spec: `AISelectedStock` — a candidate plus an AI score,
categorical indicators, free-text reasons and warnings, and an optional
negative-news summary (spec §3, fields as used in App.tsx). -/
structure AISelectedStock where
  code : String
  name : String
  price : ℚ
  change_percent : ℚ
  score : ℚ
  indicators : AIIndicators
  reasons : List String
  warnings : List String
  negative_news : Option NegativeNewsInfo
deriving DecidableEq, Repr

/-- Modelled from the spec: `MarketEnvironment` — benchmark index percent
change, sentiment class, safe-to-buy flag (spec §3, fields as used in
App.tsx: `index_change`, `market_sentiment`, `safe_to_buy`). -/
structure MarketEnvironment where
  index_change : ℚ
  market_sentiment : String
  safe_to_buy : Bool
deriving DecidableEq, Repr

/-- The `AppState` union type of App.tsx. -/
inductive AppStateTag where
  | idle
  | screening
  | screened
  | filtering
  | filtered
deriving DecidableEq, Repr

/-- The `criteria` object of a screen response (api/stock.ts, screenStocks
return type). -/
structure ScreenCriteria where
  change_range : String
  volume_ratio_range : String
  market_cap_range : String
deriving DecidableEq, Repr

/-- The screen response shape (api/stock.ts, screenStocks return type). -/
structure ScreenResponse where
  count : ℚ
  criteria : ScreenCriteria
  data : List ScreenedStock
deriving DecidableEq, Repr

/-- The `filter_criteria` object of a filter response (api/stock.ts). -/
structure FilterCriteria where
  volume_pattern : String
  price_position : String
  sector : String
deriving DecidableEq, Repr

/-- The filter response shape.  api/stock.ts declares `count, total_analyzed,
filter_criteria, data, all_analysis`; App.tsx additionally reads the optional
runtime fields `ai_selected` and `market_environment` (spec §6 declares them
optional), modelled as `Option`. -/
structure FilterResponse where
  count : ℚ
  total_analyzed : ℚ
  filter_criteria : FilterCriteria
  data : List FilteredStock
  all_analysis : List AnalysisResult
  ai_selected : Option (List AISelectedStock)
  market_environment : Option MarketEnvironment
deriving DecidableEq, Repr

/-- The outcome delivered to an `await`ed request: either the parsed response,
or a thrown error carrying `err.response?.data?.detail` (absent when the
failure had no structured payload). -/
inductive ApiOutcome (α : Type) where
  | success (resp : α)
  | failure (detail : Option String)
deriving DecidableEq, Repr

/-- `err.response?.data?.detail || fallback` (App.tsx lines 41 and 62): the
detail string is used when present and truthy (a present empty string is falsy
in JavaScript), otherwise the fallback. -/
def errDisplay (detail : Option String) (fallback : String) : String :=
  match detail with
  | some d => if d = "" then fallback else d
  | none => fallback

/-- The six `useState` slots of the App component. -/
structure Model where
  state : AppStateTag
  screenedStocks : List ScreenedStock
  filteredStocks : List FilteredStock
  analysisResults : List AnalysisResult
  aiSelectedStocks : List AISelectedStock
  marketEnv : Option MarketEnvironment
  error : Option String
deriving DecidableEq, Repr

/-- The initial values of the six `useState` slots. -/
def initialModel : Model :=
  { state := .idle
    screenedStocks := []
    filteredStocks := []
    analysisResults := []
    aiSelectedStocks := []
    marketEnv := none
    error := none }

/-- The whole client: the component state plus the bookkeeping of in-flight
requests.  `screenGen`/`filterGen` count the requests issued so far (so the
latest issued filter request, if any, has id `filterGen - 1`); the pending
lists hold the ids whose `await` has not yet resumed, a filter entry also
recording the code list captured at call time (App.tsx line 54). -/
structure Sys where
  model : Model
  screenGen : Nat
  filterGen : Nat
  pendingScreen : List Nat
  pendingFilter : List (Nat × List String)
deriving DecidableEq, Repr

/-- The client before any user action. -/
def Sys.init : Sys :=
  { model := initialModel
    screenGen := 0
    filterGen := 0
    pendingScreen := []
    pendingFilter := [] }

/-- The fixed screen criteria passed by handleScreen (App.tsx lines 29–37). -/
structure ScreenParams where
  change_min : ℚ
  change_max : ℚ
  volume_ratio_min : ℚ
  volume_ratio_max : ℚ
  market_cap_min : ℚ
  market_cap_max : ℚ
  limit : ℚ
deriving DecidableEq, Repr

/-- The constant argument of `screenStocks` in handleScreen. -/
def screenParams : ScreenParams :=
  { change_min := 3
    change_max := 5
    volume_ratio_min := 3/2
    volume_ratio_max := 3
    market_cap_min := 50
    market_cap_max := 300
    limit := 20 }

/-- `disabled={state === 'screening' || state === 'filtering'}` on the screen
button (App.tsx line 127). -/
def screenBtnDisabled (m : Model) : Bool :=
  match m.state with
  | .screening => true
  | .filtering => true
  | _ => false

/-- `disabled={screenedStocks.length === 0 || state === 'filtering' || state
=== 'screening'}` on the filter button (App.tsx line 167). -/
def filterBtnDisabled (m : Model) : Bool :=
  m.screenedStocks.length = 0 || m.state = .filtering || m.state = .screening

/-- The reset button is rendered only inside the results section
(`screenedStocks.length > 0`, App.tsx line 194) and only when
`state !== 'idle'` (line 202). -/
def resetBtnVisible (m : Model) : Bool :=
  decide (0 < m.screenedStocks.length) && !(m.state = .idle)

/-- The synchronous prefix of `handleScreen` (App.tsx lines 22–37): set state
to screening, clear the error and the filtered/analysis lists (the AI list and
market environment are NOT touched), and issue the screen request.  The await
suspends here; the continuation is `screenResponseCont`. -/
def handleScreenEntry (s : Sys) : Sys :=
  { s with
    model := { s.model with
               state := .screening
               error := none
               filteredStocks := []
               analysisResults := [] }
    screenGen := s.screenGen + 1
    pendingScreen := s.pendingScreen ++ [s.screenGen] }

/-- The continuation of `handleScreen` after the await (App.tsx lines 38–43):
on success store `result.data` and move to screened; on catch record the error
message and return to idle.  No generation check of any kind is performed. -/
def screenResponseCont (m : Model) (o : ApiOutcome ScreenResponse) : Model :=
  match o with
  | .success r => { m with screenedStocks := r.data, state := .screened }
  | .failure d =>
      { m with
        error := some (errDisplay d "筛选失败，请稍后重试")
        state := .idle }

/-- The synchronous prefix of `handleFilter` (App.tsx lines 47–55): early
return when the screened list is empty; otherwise set state to filtering,
clear the error, capture the code list, and issue the filter request. -/
def handleFilterEntry (s : Sys) : Sys :=
  if s.model.screenedStocks.length = 0 then s
  else
    { s with
      model := { s.model with state := .filtering, error := none }
      filterGen := s.filterGen + 1
      pendingFilter :=
        s.pendingFilter ++ [(s.filterGen, s.model.screenedStocks.map (·.code))] }

/-- The continuation of `handleFilter` after the await (App.tsx lines 56–64):
on success store data, all_analysis, `ai_selected || []`,
`market_environment || null`, and move to filtered; on catch record the error
and return to screened.  No generation check and no shape validation is
performed. -/
def filterResponseCont (m : Model) (o : ApiOutcome FilterResponse) : Model :=
  match o with
  | .success r =>
      { m with
        filteredStocks := r.data
        analysisResults := r.all_analysis
        aiSelectedStocks := r.ai_selected.getD []
        marketEnv := r.market_environment
        state := .filtered }
  | .failure d =>
      { m with
        error := some (errDisplay d "过滤失败，请稍后重试")
        state := .screened }

/-- `handleReset` (App.tsx lines 68–76): every state slot back to its initial
value.  In-flight requests are untouched — there is no cancellation. -/
def handleReset (s : Sys) : Sys :=
  { s with model := initialModel }

/-- The discrete events of the single-threaded, event-driven client: the four
button clicks and the arrival of a response to an issued request. -/
inductive Event where
  | screenClick
  | filterClick
  | resetClick
  | dismissClick
  | screenResponse (id : Nat) (outcome : ApiOutcome ScreenResponse)
  | filterResponse (id : Nat) (outcome : ApiOutcome FilterResponse)

/-- One event step.  A click on a disabled (or unrendered) button fires no
handler; a response event is meaningful only for a request that is actually in
flight, and its continuation then runs unconditionally against the current
state — the source has no generation token. -/
def step (s : Sys) : Event → Sys
  | .screenClick =>
      if screenBtnDisabled s.model then s else handleScreenEntry s
  | .filterClick =>
      if filterBtnDisabled s.model then s else handleFilterEntry s
  | .resetClick =>
      if resetBtnVisible s.model then handleReset s else s
  | .dismissClick =>
      if s.model.error.isSome then { s with model := { s.model with error := none } }
      else s
  | .screenResponse i o =>
      if i ∈ s.pendingScreen then
        { s with
          model := screenResponseCont s.model o
          pendingScreen := s.pendingScreen.erase i }
      else s
  | .filterResponse i o =>
      if i ∈ s.pendingFilter.map Prod.fst then
        { s with
          model := filterResponseCont s.model o
          pendingFilter := s.pendingFilter.filter (fun p => p.1 != i) }
      else s

/-- Run a sequence of events from a system state. -/
def run (s : Sys) (es : List Event) : Sys :=
  es.foldl step s

/-- A pending filter request is superseded when it is not the latest filter
request issued (spec §5's generation-token vocabulary: its generation differs
from the latest request's generation for the filter phase). -/
abbrev supersededFilter (s : Sys) (i : Nat) : Prop :=
  i + 1 ≠ s.filterGen

/- ### Chart geometry (inline in App.tsx, chart-wrapper block, lines 338–381) -/

/-- JavaScript division on the chart's finite inputs: `none` models a
non-finite result (for the polyline the only such case is `0 / 0 = NaN`, the
x coordinate of a single-sample series). -/
def jsDiv (a b : ℚ) : Option ℚ :=
  if b = 0 then none else some (a / b)

/-- `Math.min(...prices)` over a non-empty list (the chart block is guarded by
`minute_volume.length > 0`, App.tsx line 310; the `[]` case is unreachable). -/
def listMin : List ℚ → ℚ
  | [] => 0
  | x :: xs => xs.foldl (fun a b => if b ≤ a then b else a) x

/-- `Math.max(...prices)` over a non-empty list. -/
def listMax : List ℚ → ℚ
  | [] => 0
  | x :: xs => xs.foldl (fun a b => if a ≤ b then b else a) x

/-- `minPrice`/`maxPrice` of the chart block (App.tsx lines 340–342): the
minimum and maximum of the series' price field. -/
def priceRange (mv : List MinuteVolumeItem) : ℚ × ℚ :=
  (listMin (mv.map (·.price)), listMax (mv.map (·.price)))

/-- `const priceRange = maxPrice - minPrice || 1` (App.tsx line 343): the
price span, replaced by 1 when it is 0 (JavaScript `||` on the falsy 0). -/
def effectiveRange (mv : List MinuteVolumeItem) : ℚ :=
  if (priceRange mv).2 - (priceRange mv).1 = 0 then 1
  else (priceRange mv).2 - (priceRange mv).1

/-- The polyline points (App.tsx lines 347–351): sample `idx` maps to
`x = (idx / (length - 1)) * 100` and
`y = 100 - ((price - minPrice) / priceRange) * 100`.  The x coordinate is an
`Option ℚ` because the division is `0 / 0` when the series has one sample. -/
def normalizedPolyline (mv : List MinuteVolumeItem) : List (Option ℚ × ℚ) :=
  mv.enum.map (fun p =>
    ((jsDiv (p.1 : ℚ) ((mv.length : ℚ) - 1)).map (fun q => q * 100),
     100 - (p.2.price - (priceRange mv).1) / effectiveRange mv * 100))

/- ### Concrete fixtures used by the closed theorems -/

/-- A concrete candidate as returned by a coarse screen. -/
def stockA : ScreenedStock :=
  { code := "600000"
    name := "浦发银行"
    price := 10
    change := 1
    change_percent := 4
    volume_ratio := 2
    turnover := 3
    market_cap := 100
    amount := 1000
    volume := 500 }

/-- A successful screen response carrying one candidate. -/
def screenRespA : ScreenResponse :=
  { count := 1
    criteria :=
      { change_range := "3% - 5%"
        volume_ratio_range := "1.5 - 3"
        market_cap_range := "50 - 300亿" }
    data := [stockA] }

/-- A concrete refined candidate. -/
def fsA : FilteredStock :=
  { code := "600000"
    name := "浦发银行"
    price := 10
    change_percent := 4
    volume_ratio := 2
    market_cap := 100
    turnover := none
    amount := none
    ma5 := 9
    support_level := 9
    analysis :=
      { volume_pattern := "✓ 阶梯式放量"
        price_position := "✓ 站稳5日线"
        sector := "✓ 数字经济" }
    negative_news := none
    minute_volume := none }

/-- A concrete analysis verdict for stockA. -/
def arA : AnalysisResult :=
  { code := "600000"
    name := "浦发银行"
    price := 10
    change_percent := 4
    volume_ratio := 2
    market_cap := 100
    ma5 := 9
    support_level := 9
    has_volume_pattern := true
    above_ma5_high := true
    is_digital_economy := true
    qualified := true }

/-- A concrete AI-ranked candidate. -/
def aiA : AISelectedStock :=
  { code := "600000"
    name := "浦发银行"
    price := 10
    change_percent := 4
    score := 70
    indicators :=
      { tail_trend := { trend := "up" }
        upside_space := { space := 6, near_limit := false }
        capital_flow := { is_inflow := true, main_inflow := 1 }
        open_probability := "high" }
    reasons := ["量价齐升"]
    warnings := []
    negative_news := none }

/-- A concrete market environment snapshot. -/
def envA : MarketEnvironment :=
  { index_change := 1
    market_sentiment := "bullish"
    safe_to_buy := true }

/-- A successful filter response with one refined candidate, one verdict, an
AI list, and a market environment. -/
def filterRespA : FilterResponse :=
  { count := 1
    total_analyzed := 1
    filter_criteria :=
      { volume_pattern := "阶梯式放量"
        price_position := "站稳5日线+近期高点"
        sector := "数字经济" }
    data := [fsA]
    all_analysis := [arA]
    ai_selected := some [aiA]
    market_environment := some envA }

/-- A successful filter response without the optional sections. -/
def staleFilterResp : FilterResponse :=
  { filterRespA with ai_selected := none, market_environment := none }

/-- A malformed filter response: its verdict list is empty although one code
was submitted. -/
def mismatchFilterResp : FilterResponse :=
  { filterRespA with all_analysis := [], ai_selected := none, market_environment := none }

/-- Screen succeeds with one candidate, then a filter request is issued and
is still in flight (pendingFilter = [(0, ["600000"])]). -/
def pendingOneFilterTrace : List Event :=
  [.screenClick, .screenResponse 0 (.success screenRespA), .filterClick]

/-- A filter request is issued, then the user resets while it is in flight,
screens again, and issues a second filter request: the first filter request
(generation 0) is now superseded by the second (generation 1). -/
def supersededFilterTrace : List Event :=
  pendingOneFilterTrace ++
    [.resetClick, .screenClick, .screenResponse 1 (.success screenRespA), .filterClick]

/-- A filter request fails, leaving the controller screened with a visible
error and a non-empty candidate list. -/
def priorErrorTrace : List Event :=
  pendingOneFilterTrace ++ [.filterResponse 0 (.failure (some "服务暂不可用"))]

/-- A successful screen followed by a failing screen: the failure arrives
while a previous candidate set is held. -/
def screenedThenFailTrace : List Event :=
  [.screenClick, .screenResponse 0 (.success screenRespA),
   .screenClick, .screenResponse 1 (.failure none)]

/-- A successful filter stores AI picks and a market environment; the
controller ends in `filtered`. -/
def aiFilteredTrace : List Event :=
  pendingOneFilterTrace ++ [.filterResponse 0 (.success filterRespA)]

/-- A successful filter stores AI picks and a market environment, then a new
coarse screen is started. -/
def aiThenScreenTrace : List Event :=
  aiFilteredTrace ++ [.screenClick]

/-- The four-sample series from spec §8, prices [10, 12, 9, 15]. -/
def chartSeries : List MinuteVolumeItem :=
  [{ time := "09:30", price := 10, volume := 100, cum_volume := 100 },
   { time := "09:31", price := 12, volume := 200, cum_volume := 300 },
   { time := "09:32", price := 9, volume := 150, cum_volume := 450 },
   { time := "09:33", price := 15, volume := 250, cum_volume := 700 }]

/-- A degenerate single-sample series. -/
def singleSample : List MinuteVolumeItem :=
  [{ time := "09:30", price := 10, volume := 5, cum_volume := 5 }]

/- ### Helper lemmas (shared across claims) -/

/-- `detail || fallback` is never the empty string when the fallback is
non-empty: JavaScript's `||` replaces an absent or empty detail. -/
theorem errDisplay_ne_empty (d : Option String) (fb : String) (h : fb ≠ "") :
    errDisplay d fb ≠ "" := by
  cases d with
  | none => simpa [errDisplay] using h
  | some x =>
      simp only [errDisplay]
      split
      · exact h
      · assumption

/-- A successful filter response to any in-flight request — current or
superseded — is applied verbatim to the component state. -/
theorem filterSuccess_applied (s : Sys) (i : Nat) (codes : List String)
    (resp : FilterResponse) (hmem : (i, codes) ∈ s.pendingFilter) :
    (step s (.filterResponse i (.success resp))).model =
      { s.model with
        filteredStocks := resp.data
        analysisResults := resp.all_analysis
        aiSelectedStocks := resp.ai_selected.getD []
        marketEnv := resp.market_environment
        state := .filtered } := by
  have hm : i ∈ s.pendingFilter.map Prod.fst := List.mem_map_of_mem _ hmem
  simp [step, hm, filterResponseCont]

/-- A failing filter response to any in-flight request records the error and
moves to screened, touching nothing else. -/
theorem filterFailure_applied (s : Sys) (i : Nat) (codes : List String)
    (d : Option String) (hmem : (i, codes) ∈ s.pendingFilter) :
    (step s (.filterResponse i (.failure d))).model =
      { s.model with
        state := .screened
        error := some (errDisplay d "过滤失败，请稍后重试") } := by
  have hm : i ∈ s.pendingFilter.map Prod.fst := List.mem_map_of_mem _ hmem
  simp [step, hm, filterResponseCont]

/-- A failing screen response to any in-flight request records the error and
moves to idle, touching nothing else — in particular the held candidate list
is not cleared. -/
theorem screenFailure_applied (s : Sys) (i : Nat) (d : Option String)
    (hmem : i ∈ s.pendingScreen) :
    (step s (.screenResponse i (.failure d))).model =
      { s.model with
        state := .idle
        error := some (errDisplay d "筛选失败，请稍后重试") } := by
  simp [step, hmem, screenResponseCont]

/- ### Claim theorems -/

/-- C5: startScreen is rejected while a screen or filter request is in
flight: with the controller in `screening` or `filtering`, a screen
submission leaves the entire system unchanged — no state transition, no new
request issued, nothing queued. -/
theorem c5_screen_rejected_in_flight (s : Sys)
    (h : s.model.state = .screening ∨ s.model.state = .filtering) :
    step s .screenClick = s := by
  have hd : screenBtnDisabled s.model = true := by
    rcases h with h | h <;> simp [screenBtnDisabled, h]
  simp [step, hd]

theorem c5_screen_rejected_in_flight_witness :
    step (run Sys.init [Event.screenClick]) .screenClick = run Sys.init [Event.screenClick] :=
  c5_screen_rejected_in_flight _ (Or.inl (by decide))

/-- C6: startFilter with an empty held candidate set is a no-op: the click
leaves the whole system unchanged, and the handler's own guard alone (App.tsx
line 48) already returns without touching anything or issuing a request. -/
theorem c6_filter_noop_empty (s : Sys) (h : s.model.screenedStocks = []) :
    step s .filterClick = s ∧ handleFilterEntry s = s := by
  have hlen : s.model.screenedStocks.length = 0 := by simp [h]
  constructor
  · have hd : filterBtnDisabled s.model = true := by simp [filterBtnDisabled, hlen]
    simp [step, hd]
  · simp [handleFilterEntry, hlen]

theorem c6_filter_noop_empty_witness :
    step Sys.init .filterClick = Sys.init ∧ handleFilterEntry Sys.init = Sys.init :=
  c6_filter_noop_empty Sys.init rfl

/-- C7: a failing filter response records a non-empty error and returns to
`screened`, while the held candidate set and all previously held filtered
results (refined list, verdicts, AI list, market environment) are retained
unchanged. -/
theorem c7_filter_failure_effects (s : Sys) (i : Nat) (codes : List String)
    (d : Option String) (hmem : (i, codes) ∈ s.pendingFilter) :
    (step s (.filterResponse i (.failure d))).model =
      { s.model with
        state := .screened
        error := some (errDisplay d "过滤失败，请稍后重试") } ∧
    errDisplay d "过滤失败，请稍后重试" ≠ "" :=
  ⟨filterFailure_applied s i codes d hmem,
   errDisplay_ne_empty d _ (by decide)⟩

theorem c7_filter_failure_effects_witness :
    (step (run Sys.init pendingOneFilterTrace)
        (.filterResponse 0 (.failure (some "后端错误")))).model =
      { (run Sys.init pendingOneFilterTrace).model with
        state := .screened
        error := some (errDisplay (some "后端错误") "过滤失败，请稍后重试") } ∧
    errDisplay (some "后端错误") "过滤失败，请稍后重试" ≠ "" :=
  c7_filter_failure_effects (run Sys.init pendingOneFilterTrace) 0 ["600000"]
    (some "后端错误") (by decide)

/-- C10: whenever handleFilter proceeds past its empty-set guard, it clears
any previously displayed error and enters `filtering` before the request's
outcome is known, and it issues exactly one new filter request. -/
theorem c10_filter_entry_clears_error (s : Sys) (h : s.model.screenedStocks ≠ []) :
    (handleFilterEntry s).model =
      { s.model with state := .filtering, error := none } ∧
    (handleFilterEntry s).filterGen = s.filterGen + 1 := by
  have hlen : ¬s.model.screenedStocks.length = 0 := by
    simpa [List.length_eq_zero] using h
  constructor <;> simp [handleFilterEntry, hlen]

theorem c10_filter_entry_clears_error_witness :
    (handleFilterEntry (run Sys.init priorErrorTrace)).model =
      { (run Sys.init priorErrorTrace).model with state := .filtering, error := none } ∧
    (handleFilterEntry (run Sys.init priorErrorTrace)).filterGen =
      (run Sys.init priorErrorTrace).filterGen + 1 :=
  c10_filter_entry_clears_error (run Sys.init priorErrorTrace) (by decide)

/-- C1 counterexample: after `supersededFilterTrace` the filter request of
generation 0 is superseded (the latest filter generation is 1), yet the
arrival of its response is applied: the controller jumps from `filtering` to
`filtered` and installs the stale refined/verdict data.  The source has no
generation token. -/
theorem c1_counterexample :
    supersededFilter (run Sys.init supersededFilterTrace) 0 ∧
    (run Sys.init supersededFilterTrace).model.state = .filtering ∧
    (run Sys.init supersededFilterTrace).model.filteredStocks = [] ∧
    (step (run Sys.init supersededFilterTrace)
        (.filterResponse 0 (.success staleFilterResp))).model.state = .filtered ∧
    (step (run Sys.init supersededFilterTrace)
        (.filterResponse 0 (.success staleFilterResp))).model.filteredStocks = [fsA] ∧
    (step (run Sys.init supersededFilterTrace)
        (.filterResponse 0 (.success staleFilterResp))).model ≠
      (run Sys.init supersededFilterTrace).model := by
  decide

/-- C1 (amended): the response to a superseded filter request is NOT
discarded — it is applied to the workflow state exactly as a current response
would be: the held refined/verdict/AI/market collections are overwritten with
the stale response's content and the controller moves to `filtered`
(last-writer-wins; no generation check exists in the code). -/
theorem c1_superseded_response_applied (s : Sys) (i : Nat) (codes : List String)
    (resp : FilterResponse) (hmem : (i, codes) ∈ s.pendingFilter)
    (hsup : supersededFilter s i) :
    (step s (.filterResponse i (.success resp))).model =
      { s.model with
        filteredStocks := resp.data
        analysisResults := resp.all_analysis
        aiSelectedStocks := resp.ai_selected.getD []
        marketEnv := resp.market_environment
        state := .filtered } :=
  filterSuccess_applied s i codes resp hmem

theorem c1_superseded_response_applied_witness :
    (step (run Sys.init supersededFilterTrace)
        (.filterResponse 0 (.success staleFilterResp))).model =
      { (run Sys.init supersededFilterTrace).model with
        filteredStocks := staleFilterResp.data
        analysisResults := staleFilterResp.all_analysis
        aiSelectedStocks := staleFilterResp.ai_selected.getD []
        marketEnv := staleFilterResp.market_environment
        state := .filtered } :=
  c1_superseded_response_applied (run Sys.init supersededFilterTrace) 0 ["600000"]
    staleFilterResp (by decide) (by decide)

/-- C2 counterexample: one code was submitted ("600000") but the response's
verdict list is empty; the response is nevertheless accepted — the controller
ends in `filtered` with no error and stores the mismatched verdict list
as-is.  Neither filterStocks nor handleFilter checks the length. -/
theorem c2_counterexample :
    (run Sys.init pendingOneFilterTrace).pendingFilter = [(0, ["600000"])] ∧
    mismatchFilterResp.all_analysis.length = 0 ∧
    (step (run Sys.init pendingOneFilterTrace)
        (.filterResponse 0 (.success mismatchFilterResp))).model.state = .filtered ∧
    (step (run Sys.init pendingOneFilterTrace)
        (.filterResponse 0 (.success mismatchFilterResp))).model.error = none ∧
    (step (run Sys.init pendingOneFilterTrace)
        (.filterResponse 0 (.success mismatchFilterResp))).model.analysisResults = [] := by
  decide

/-- C2 (amended): a filter response whose verdict list's length differs from
the number of submitted codes is not rejected: it is silently coerced into
workflow state — stored verbatim, with no error raised and the controller
moving to `filtered`. -/
theorem c2_mismatch_accepted (s : Sys) (i : Nat) (codes : List String)
    (resp : FilterResponse) (hmem : (i, codes) ∈ s.pendingFilter)
    (hlen : resp.all_analysis.length ≠ codes.length) :
    (step s (.filterResponse i (.success resp))).model =
      { s.model with
        filteredStocks := resp.data
        analysisResults := resp.all_analysis
        aiSelectedStocks := resp.ai_selected.getD []
        marketEnv := resp.market_environment
        state := .filtered } :=
  filterSuccess_applied s i codes resp hmem

theorem c2_mismatch_accepted_witness :
    (step (run Sys.init pendingOneFilterTrace)
        (.filterResponse 0 (.success mismatchFilterResp))).model =
      { (run Sys.init pendingOneFilterTrace).model with
        filteredStocks := mismatchFilterResp.data
        analysisResults := mismatchFilterResp.all_analysis
        aiSelectedStocks := mismatchFilterResp.ai_selected.getD []
        marketEnv := mismatchFilterResp.market_environment
        state := .filtered } :=
  c2_mismatch_accepted (run Sys.init pendingOneFilterTrace) 0 ["600000"]
    mismatchFilterResp (by decide) (by decide)

/-- C3 counterexample: a successful filter stored an AI list and a market
environment; starting a new coarse screen enters `screening` and clears the
refined list, the verdict list and the error — but the held AI list and
market environment are NOT cleared (handleScreen never touches
aiSelectedStocks or marketEnv). -/
theorem c3_counterexample :
    (run Sys.init aiThenScreenTrace).model.state = .screening ∧
    (run Sys.init aiThenScreenTrace).model.filteredStocks = [] ∧
    (run Sys.init aiThenScreenTrace).model.analysisResults = [] ∧
    (run Sys.init aiThenScreenTrace).model.error = none ∧
    (run Sys.init aiThenScreenTrace).model.aiSelectedStocks = [aiA] ∧
    (run Sys.init aiThenScreenTrace).model.marketEnv = some envA := by
  decide

/-- C3 (amended): on entry to `screening`, startScreen clears the held
RefinedCandidate list, the Verdict list and any prior error, but the AIRanked
list and the MarketEnvironment are retained unchanged (they are only replaced
by a later filter response or a reset). -/
theorem c3_screen_entry_effects (s : Sys) (h : screenBtnDisabled s.model = false) :
    step s .screenClick = handleScreenEntry s ∧
    (handleScreenEntry s).model =
      { s.model with
        state := .screening
        error := none
        filteredStocks := []
        analysisResults := [] } ∧
    (handleScreenEntry s).model.aiSelectedStocks = s.model.aiSelectedStocks ∧
    (handleScreenEntry s).model.marketEnv = s.model.marketEnv := by
  refine ⟨?_, rfl, rfl, rfl⟩
  simp [step, h]

theorem c3_screen_entry_effects_witness :
    step (run Sys.init aiFilteredTrace) .screenClick =
      handleScreenEntry (run Sys.init aiFilteredTrace) ∧
    (handleScreenEntry (run Sys.init aiFilteredTrace)).model =
      { (run Sys.init aiFilteredTrace).model with
        state := .screening
        error := none
        filteredStocks := []
        analysisResults := [] } ∧
    (handleScreenEntry (run Sys.init aiFilteredTrace)).model.aiSelectedStocks =
      (run Sys.init aiFilteredTrace).model.aiSelectedStocks ∧
    (handleScreenEntry (run Sys.init aiFilteredTrace)).model.marketEnv =
      (run Sys.init aiFilteredTrace).model.marketEnv :=
  c3_screen_entry_effects (run Sys.init aiFilteredTrace) (by decide)

/-- C4 counterexample: a screen succeeds with one candidate and a second
screen then fails; after the failure the controller is idle with a non-empty
error, but the candidate set from the earlier successful screen is still
held — handleScreen's catch block never clears screenedStocks. -/
theorem c4_counterexample :
    (run Sys.init screenedThenFailTrace).model.state = .idle ∧
    (run Sys.init screenedThenFailTrace).model.error = some "筛选失败，请稍后重试" ∧
    (run Sys.init screenedThenFailTrace).model.screenedStocks = [stockA] ∧
    [stockA] ≠ ([] : List ScreenedStock) := by
  decide

/-- C4 (amended): after a failed startScreen the post-state is `idle` and the
error field is non-empty, but the candidate set held before the failure is
retained unchanged (as is every other collection). -/
theorem c4_screen_failure_effects (s : Sys) (i : Nat) (d : Option String)
    (hmem : i ∈ s.pendingScreen) :
    (step s (.screenResponse i (.failure d))).model =
      { s.model with
        state := .idle
        error := some (errDisplay d "筛选失败，请稍后重试") } ∧
    errDisplay d "筛选失败，请稍后重试" ≠ "" :=
  ⟨screenFailure_applied s i d hmem, errDisplay_ne_empty d _ (by decide)⟩

theorem c4_screen_failure_effects_witness :
    (step (run Sys.init [Event.screenClick, .screenResponse 0 (.success screenRespA), .screenClick])
        (.screenResponse 1 (.failure none))).model =
      { (run Sys.init [Event.screenClick, .screenResponse 0 (.success screenRespA), .screenClick]).model with
        state := .idle
        error := some (errDisplay none "筛选失败，请稍后重试") } ∧
    errDisplay none "筛选失败，请稍后重试" ≠ "" :=
  c4_screen_failure_effects
    (run Sys.init [Event.screenClick, .screenResponse 0 (.success screenRespA), .screenClick])
    1 none (by decide)

/-- C8: for a series of n ≥ 2 samples, sample i maps to
x = i/(n-1)·100 and y = 100 − (price − min)/effectiveRange·100 with
effectiveRange = max − min, or 1 when all prices are equal; over the prices
[10, 12, 9, 15] the price range is (9, 15), the first sample's y is
100 − (10−9)/6·100 = 250/3 ≈ 83.33, and the max-price sample's y is 0. -/
theorem c8_polyline_formula (mv : List MinuteVolumeItem) (h2 : 2 ≤ mv.length)
    (i : Nat) (hi : i < mv.length) :
    (normalizedPolyline mv).get? i =
      some (some ((i : ℚ) / ((mv.length : ℚ) - 1) * 100),
            100 - ((mv.get ⟨i, hi⟩).price - (priceRange mv).1) / effectiveRange mv * 100) ∧
    priceRange chartSeries = (9, 15) ∧
    effectiveRange chartSeries = 6 ∧
    (normalizedPolyline chartSeries).get? 0 = some (some 0, 250 / 3) ∧
    (100 : ℚ) - (10 - 9) / 6 * 100 = 250 / 3 ∧
    (normalizedPolyline chartSeries).get? 3 = some (some 100, 0) := by
  refine ⟨?_, by decide, by with_unfolding_all decide, by with_unfolding_all decide,
    by with_unfolding_all decide, by with_unfolding_all decide⟩
  have hne : ((mv.length : ℚ) - 1) ≠ 0 := by
    have h1 : (1 : ℚ) < (mv.length : ℚ) := by
      exact_mod_cast Nat.lt_of_lt_of_le (by norm_num) h2
    intro hzero
    rw [sub_eq_zero] at hzero
    rw [hzero] at h1
    exact lt_irrefl 1 h1
  simp [normalizedPolyline, List.get?_map, List.get?_enum, List.get?_eq_get hi,
    jsDiv, hne]
  exact ⟨mv[i], List.getElem?_eq_getElem hi, rfl⟩

theorem c8_polyline_formula_witness :
    (normalizedPolyline chartSeries).get? 0 =
      some (some ((0 : ℚ) / ((chartSeries.length : ℚ) - 1) * 100),
            100 - ((chartSeries.get ⟨0, by decide⟩).price - (priceRange chartSeries).1) /
              effectiveRange chartSeries * 100) ∧
    priceRange chartSeries = (9, 15) ∧
    effectiveRange chartSeries = 6 ∧
    (normalizedPolyline chartSeries).get? 0 = some (some 0, 250 / 3) ∧
    (100 : ℚ) - (10 - 9) / 6 * 100 = 250 / 3 ∧
    (normalizedPolyline chartSeries).get? 3 = some (some 100, 0) :=
  c8_polyline_formula chartSeries (by decide) 0 (by decide)

/-- C9 counterexample: over a single-sample series the polyline's sole point
has an undefined x coordinate — the source computes x = (0 / (1−1))·100,
i.e. 0/0 = NaN (modelled as `none`) — and not the well-defined x = 0 the
claim asserts.  Its y coordinate is 100. -/
theorem c9_counterexample :
    normalizedPolyline singleSample = [(none, 100)] ∧
    (normalizedPolyline singleSample).map Prod.fst ≠ [some 0] := by
  with_unfolding_all decide

/-- C9 (amended): a single-sample series maps to a single point whose y is
well-defined but whose x is non-numeric: the x computation divides 0 by
n − 1 = 0, which in JavaScript yields NaN rather than 0. -/
theorem c9_single_sample_nan (mv : List MinuteVolumeItem) (h : mv.length = 1) :
    (normalizedPolyline mv).map Prod.fst = [none] := by
  match mv, h with
  | [m], _ => simp [normalizedPolyline, jsDiv]

theorem c9_single_sample_nan_witness :
    (normalizedPolyline singleSample).map Prod.fst = [none] :=
  c9_single_sample_nan singleSample (by decide)
